import Mathlib

/-!
Verification of `pymc_extras/statespace/utils/data_tools.py` and the test helper
`tests/statespace/test_utilities.py` (function `simulate_from_numpy_model`).

The numeric values of observation matrices are IEEE floats in the source; the float
behaviour the code under verification relies on is the distinction between the invalid
values (NaN and the two infinities, which `np.ma.masked_invalid` masks) and finite numbers,
together with numpy's equality semantics in which NaN and the infinities compare unequal to
every finite number.  We therefore embed a float value as NaN, +inf, -inf or an exact
rational, and a masked array's `.mask` as either a full boolean matrix or the shrunk scalar
`np.ma.nomask`.
-/

instance {ε α : Type _} [DecidableEq ε] [DecidableEq α] : DecidableEq (Except ε α) := fun x y =>
  match x, y with
  | .ok a, .ok b =>
    if h : a = b then .isTrue (by rw [h]) else .isFalse (by intro hc; cases hc; exact h rfl)
  | .ok _, .error _ => .isFalse (by intro hc; cases hc)
  | .error _, .ok _ => .isFalse (by intro hc; cases hc)
  | .error e, .error f =>
    if h : e = f then .isTrue (by rw [h]) else .isFalse (by intro hc; cases hc; exact h rfl)

/-- A numpy float value as used by the data tools: NaN, positive infinity, negative
infinity, or a finite number (modelled as an exact rational). -/
inductive FloatVal where
  | nan : FloatVal
  | inf : FloatVal
  | ninf : FloatVal
  | val : ℚ → FloatVal
deriving DecidableEq, Repr

/-- `np.isnan` on a single value: true only for NaN, not for the infinities. -/
def FloatVal.isNaN : FloatVal → Bool
  | .nan => true
  | _ => false

/-- `~np.isfinite` on a single value: the condition `np.ma.masked_invalid` masks.  True for
NaN and for both infinities, false for every finite number. -/
def FloatVal.isInvalid : FloatVal → Bool
  | .val _ => false
  | _ => true

/-- numpy elementwise equality of a float value with a finite number: NaN compares unequal
to everything, and the infinities are unequal to every finite number.  This is the
comparison `values == missing_fill_value` performs (the sentinel is a finite float). -/
def FloatVal.eqNum : FloatVal → ℚ → Bool
  | .val x, q => decide (x = q)
  | _, _ => false

/-- `np.ma.masked_invalid(values).filled(fill)` on a single value: invalid entries (NaN and
±inf) are replaced by the fill value, finite entries are kept. -/
def FloatVal.fillWith (fill : ℚ) : FloatVal → ℚ
  | .val x => x
  | _ => fill

/-- Modelled from the spec: the sentinel fill constant `MISSING_FILL` imported from
`pymc_extras.statespace.utils.constants`, a module not included in the sources.  The glossary
describes it as a reserved numeric constant substituted for NaN entries; its concrete value
does not affect any claim below. -/
def MISSING_FILL : ℚ := -9999

/-- The errors raised by the data tools, one constructor per `raise` site relevant to the
claims.  Python exception classes map as follows: `notRank2`, `shapeMismatch`,
`missingColumns`, `sentinelCollision` and `coordinateConflict` are `ValueError`s,
`indexNotInteger` and `indexNotMonotonic` are `IndexError`s, and
`multiIndexNotImplemented` is a `NotImplementedError`. -/
inductive DataError where
  | notRank2
  | shapeMismatch (expected actual : ℕ)
  | missingColumns (missing : List String)
  | indexNotInteger
  | indexNotMonotonic
  | multiIndexNotImplemented
  | sentinelCollision (fill : ℚ)
  | coordinateConflict
deriving DecidableEq, Repr

/-- The `.mask` attribute of a numpy masked array: either the shrunk scalar `np.ma.nomask`
(a 0-d `False`, produced when no entry is masked) or a full boolean array of the data's
shape. -/
inductive NanMask where
  | nomask : NanMask
  | maskArray : List (List Bool) → NanMask
deriving DecidableEq, Repr

/-- `np.ma.masked_invalid(values).mask`: the boolean matrix `~np.isfinite(values)`, shrunk
to `np.ma.nomask` when it holds no true entry (`masked_where` assigns
`_shrink_mask(cond)` to the result's mask). -/
def masked_invalid_mask (values : List (List FloatVal)) : NanMask :=
  let cond := values.map (fun row => row.map FloatVal.isInvalid)
  if cond.any (fun row => row.any id) then .maskArray cond else .nomask

/-- `np.any(mask)` on a possibly shrunk mask. -/
def NanMask.anyTrue : NanMask → Bool
  | .nomask => false
  | .maskArray m => m.any (fun row => row.any id)

/-- `mask_missing_values_in_data(values, missing_fill_value)` from `data_tools.py`.
A 2-D numpy array is a list of rows.  The source computes
`masked_values = np.ma.masked_invalid(values)` (masking NaN and ±inf),
`filled_values = masked_values.filled(fill)` and `nan_mask = masked_values.mask` (the shrunk
mask), then — only when some entry was masked — raises a `ValueError` if the fill value also
occurs among the finite entries of `values`.  The advisory `ImputationWarning` emitted in
the masked-no-collision case is not modelled (warnings are side channels no claim
mentions). -/
def mask_missing_values_in_data (values : List (List FloatVal)) (missing_fill_value : Option ℚ) :
    Except DataError (List (List ℚ) × NanMask) :=
  let fill := missing_fill_value.getD MISSING_FILL
  let filled_values := values.map (fun row => row.map (FloatVal.fillWith fill))
  let nan_mask := masked_invalid_mask values
  if nan_mask.anyTrue then
    if values.any (fun row => row.any (fun v => v.eqNum fill)) then
      .error (.sentinelCollision fill)
    else
      .ok (filled_values, nan_mask)
  else
    .ok (filled_values, nan_mask)

/-- Re-inserting NaN at every mask-true position of a filled matrix (the round-trip
operation of the masking round-trip property).  A shrunk `nomask` marks no position, so the
filled numbers are taken as they stand. -/
def reinsert_nans (filled : List (List ℚ)) (mask : NanMask) : List (List FloatVal) :=
  match mask with
  | .nomask => filled.map (fun row => row.map FloatVal.val)
  | .maskArray m =>
    List.zipWith
      (fun frow mrow => List.zipWith (fun q b => if b then FloatVal.nan else .val q) frow mrow)
      filled m

example :
    mask_missing_values_in_data [[.val 1, .nan], [.val 3, .val 4]] (some (-5)) =
      .ok ([[1, -5], [3, 4]], .maskArray [[false, true], [false, false]]) := by decide

example :
    mask_missing_values_in_data [[.val 1, .nan], [.val (-5), .val 4]] (some (-5)) =
      .error (.sentinelCollision (-5)) := by decide

example :
    mask_missing_values_in_data [[.val 1, .val (-5)]] (some (-5)) =
      .ok ([[1, -5]], .nomask) := by decide

example :
    mask_missing_values_in_data [[.inf, .val 4]] (some (-5)) =
      .ok ([[-5, 4]], .maskArray [[true, false]]) := by decide

lemma mask_ok_eq (values : List (List FloatVal)) (fillOpt : Option ℚ)
    (filled : List (List ℚ)) (mask : NanMask)
    (h : mask_missing_values_in_data values fillOpt = .ok (filled, mask)) :
    filled = values.map (fun row => row.map (FloatVal.fillWith (fillOpt.getD MISSING_FILL))) ∧
    mask = masked_invalid_mask values := by
  simp only [mask_missing_values_in_data] at h
  split at h
  · split at h
    · simp at h
    · simp only [Except.ok.injEq, Prod.mk.injEq] at h
      exact ⟨h.1.symm, h.2.symm⟩
  · simp only [Except.ok.injEq, Prod.mk.injEq] at h
    exact ⟨h.1.symm, h.2.symm⟩

lemma eqNum_eq_true_iff (v : FloatVal) (q : ℚ) : v.eqNum q = true ↔ v = .val q := by
  cases v <;> simp [FloatVal.eqNum]

lemma isInvalid_eq_false_iff (v : FloatVal) : v.isInvalid = false ↔ ∃ q, v = .val q := by
  cases v <;> simp [FloatVal.isInvalid]

lemma any_map_general {α β : Type _} (f : α → β) (l : List α) (p : β → Bool) :
    (l.map f).any p = l.any (fun a => p (f a)) := by
  induction l with
  | nil => rfl
  | cons x xs ih => simp [ih]

lemma invalid_any_iff (values : List (List FloatVal)) :
    ((values.map (fun row => row.map FloatVal.isInvalid)).any (fun row => row.any id) = true) ↔
      ∃ row ∈ values, ∃ v ∈ row, v.isInvalid = true := by
  simp only [any_map_general]
  simp only [List.any_eq_true, id_eq]

lemma anyTrue_masked_invalid_iff (values : List (List FloatVal)) :
    ((masked_invalid_mask values).anyTrue = true) ↔
      ∃ row ∈ values, ∃ v ∈ row, v.isInvalid = true := by
  simp only [masked_invalid_mask]
  split
  · rename_i h
    exact iff_of_true h ((invalid_any_iff values).mp h)
  · rename_i h
    apply iff_of_false
    · intro hc
      simp [NanMask.anyTrue] at hc
    · intro hc
      exact h ((invalid_any_iff values).mpr hc)

lemma fill_any_iff (values : List (List FloatVal)) (fill : ℚ) :
    (values.any (fun row => row.any (fun v => v.eqNum fill)) = true) ↔
      ∃ row ∈ values, ∃ v ∈ row, v = FloatVal.val fill := by
  simp only [List.any_eq_true, eqNum_eq_true_iff]

/-- Claim C1 counterexample: the masker does not behave as claimed on every input.  On the
NaN-free input `[[1]]` the returned mask is the shrunk scalar `nomask`, not a boolean array
of the input's shape; and on `[[inf]]` (no NaN anywhere) the mask is true — and the filled
matrix holds the sentinel — at a position whose source value is not NaN. -/
theorem C1_counterexample :
    mask_missing_values_in_data [[FloatVal.val 1]] none = .ok ([[1]], .nomask) ∧
    mask_missing_values_in_data [[FloatVal.inf]] none =
      .ok ([[MISSING_FILL]], .maskArray [[true]]) ∧
    FloatVal.inf.isNaN = false := by decide

/-- Claim C1 (amended): for every numeric observation matrix the masker accepts, the
returned filled matrix has the input's shape and equals the input with exactly the
non-finite (NaN or ±inf) positions replaced by the sentinel; the returned mask is a boolean
array of the input's shape with true exactly at the non-finite positions whenever the input
contains at least one non-finite entry, and the shrunk scalar `nomask` otherwise. -/
theorem C1_amended_mask_shape_and_values (values : List (List FloatVal)) (fillOpt : Option ℚ)
    (filled : List (List ℚ)) (mask : NanMask)
    (h : mask_missing_values_in_data values fillOpt = .ok (filled, mask)) :
    filled.length = values.length ∧
    (∀ i : ℕ, filled[i]?.map List.length = values[i]?.map List.length) ∧
    (∀ (i j : ℕ) (v : FloatVal), (values[i]?.bind fun row => row[j]?) = some v →
      (filled[i]?.bind fun row => row[j]?) = some (v.fillWith (fillOpt.getD MISSING_FILL))) ∧
    ((∃ row ∈ values, ∃ v ∈ row, v.isInvalid = true) →
      mask = .maskArray (values.map (fun row => row.map FloatVal.isInvalid)) ∧
      (values.map (fun row => row.map FloatVal.isInvalid)).length = values.length ∧
      (∀ i : ℕ, (values.map (fun row => row.map FloatVal.isInvalid))[i]?.map List.length =
        values[i]?.map List.length) ∧
      (∀ (i j : ℕ) (v : FloatVal), (values[i]?.bind fun row => row[j]?) = some v →
        ((values.map (fun row => row.map FloatVal.isInvalid))[i]?.bind fun row => row[j]?) =
          some v.isInvalid)) ∧
    ((¬ ∃ row ∈ values, ∃ v ∈ row, v.isInvalid = true) → mask = .nomask) := by
  obtain ⟨hf, hm⟩ := mask_ok_eq values fillOpt filled mask h
  subst hf
  refine ⟨by simp, ?_, ?_, ?_, ?_⟩
  · intro i
    rw [List.getElem?_map]
    cases values[i]? <;> simp
  · intro i j v hv
    cases hrow : values[i]? with
    | none => rw [hrow] at hv; simp at hv
    | some row =>
      rw [hrow] at hv
      replace hv : row[j]? = some v := hv
      simp [List.getElem?_map, hrow, hv]
  · intro hinv
    have hmm : mask = .maskArray (values.map (fun row => row.map FloatVal.isInvalid)) := by
      rw [hm]
      simp only [masked_invalid_mask]
      rw [if_pos ((invalid_any_iff values).mpr hinv)]
    refine ⟨hmm, by simp, ?_, ?_⟩
    · intro i
      rw [List.getElem?_map]
      cases values[i]? <;> simp
    · intro i j v hv
      cases hrow : values[i]? with
      | none => rw [hrow] at hv; simp at hv
      | some row =>
        rw [hrow] at hv
        replace hv : row[j]? = some v := hv
        simp [List.getElem?_map, hrow, hv]
  · intro hninv
    rw [hm]
    simp only [masked_invalid_mask]
    rw [if_neg (fun hc => hninv ((invalid_any_iff values).mp hc))]

/-- Claim C1 (amended) witness: a concrete run of the masker on the matrix `[[1, NaN]]`
with sentinel `-7`. -/
theorem C1_amended_mask_witness :
    (([[1, -7]] : List (List ℚ))[0]?.bind fun row => row[1]?) = (some (-7) : Option ℚ) := by
  have h := C1_amended_mask_shape_and_values [[FloatVal.val 1, FloatVal.nan]] (some (-7))
    [[1, -7]] (.maskArray [[false, true]]) rfl
  exact h.2.2.1 0 1 FloatVal.nan rfl

/-- Claim C2 counterexample: `[[inf, -9999]]` with the default sentinel `-9999` contains no
NaN, yet the masker raises the collision `ValueError` — `masked_invalid` masks the infinity,
which triggers the collision check against the finite `-9999` entry.  This refutes both
"error only if at least one NaN" and "every input with no NaNs succeeds". -/
theorem C2_counterexample :
    mask_missing_values_in_data [[FloatVal.inf, FloatVal.val (-9999)]] none =
      .error (.sentinelCollision (-9999)) ∧
    ¬ ∃ row ∈ [[FloatVal.inf, FloatVal.val (-9999)]], ∃ v ∈ row, v = FloatVal.nan := by
  decide

/-- Claim C2 (amended): the masker raises its value error exactly when the input contains at
least one non-finite entry (NaN or ±inf) and the sentinel also occurs among the input's
finite values; in particular an input with no non-finite entries always succeeds, even when
the sentinel value appears in the data. -/
theorem C2_amended_collision_iff (values : List (List FloatVal)) (fillOpt : Option ℚ) :
    (∃ e, mask_missing_values_in_data values fillOpt = .error e) ↔
      ((∃ row ∈ values, ∃ v ∈ row, v.isInvalid = true) ∧
       (∃ row ∈ values, ∃ v ∈ row, v = FloatVal.val (fillOpt.getD MISSING_FILL))) := by
  simp only [mask_missing_values_in_data]
  split
  · split
    · rename_i hinv hfill
      exact iff_of_true ⟨_, rfl⟩
        ⟨(anyTrue_masked_invalid_iff values).mp hinv, (fill_any_iff values _).mp hfill⟩
    · rename_i hinv hfill
      apply iff_of_false
      · rintro ⟨e, he⟩
        simp at he
      · rintro ⟨-, hcoll⟩
        exact hfill ((fill_any_iff values _).mpr hcoll)
  · rename_i hinv
    apply iff_of_false
    · rintro ⟨e, he⟩
      simp at he
    · rintro ⟨hhasinv, -⟩
      exact hinv ((anyTrue_masked_invalid_iff values).mpr hhasinv)

/-- Claim C3 counterexample: the accepted input `[[inf, 1]]` (no NaN, no sentinel value) is
filled with the sentinel and masked at the infinity, so re-inserting NaN at the mask-true
positions yields NaN at position (0,0) — a non-NaN position whose original value `inf` is
not reproduced. -/
theorem C3_counterexample :
    mask_missing_values_in_data [[FloatVal.inf, FloatVal.val 1]] none =
      .ok ([[-9999, 1]], .maskArray [[true, false]]) ∧
    ((reinsert_nans [[-9999, 1]] (.maskArray [[true, false]]))[0]?.bind fun row => row[0]?) =
      some FloatVal.nan ∧
    FloatVal.inf.isNaN = false ∧ FloatVal.inf ≠ FloatVal.nan := by decide

lemma reinsert_row (fill : ℚ) (row : List FloatVal) :
    List.zipWith (fun q b => if b then FloatVal.nan else .val q)
      (row.map (FloatVal.fillWith fill)) (row.map FloatVal.isInvalid) =
      row.map (fun v => if v.isInvalid = true then FloatVal.nan else v) := by
  induction row with
  | nil => rfl
  | cons v rest ih => cases v <;> simp [FloatVal.fillWith, FloatVal.isInvalid, ih]

lemma reinsert_nans_maskarray (fill : ℚ) (values : List (List FloatVal)) :
    reinsert_nans (values.map (fun row => row.map (FloatVal.fillWith fill)))
      (.maskArray (values.map (fun row => row.map FloatVal.isInvalid))) =
      values.map (fun row =>
        row.map (fun v => if v.isInvalid = true then FloatVal.nan else v)) := by
  induction values with
  | nil => rfl
  | cons row rest ih =>
    simp only [reinsert_nans, List.map_cons, List.zipWith_cons_cons] at ih ⊢
    exact congrArg₂ List.cons (reinsert_row fill row) ih

/-- Claim C3 (amended): masking round-trip — on every accepted input, re-inserting NaN at
every mask-true position of the returned filled matrix reproduces the original matrix at
every finite position (non-finite positions, NaN or ±inf, come back as NaN). -/
theorem C3_amended_roundtrip (values : List (List FloatVal)) (fillOpt : Option ℚ)
    (filled : List (List ℚ)) (mask : NanMask)
    (h : mask_missing_values_in_data values fillOpt = .ok (filled, mask)) :
    ∀ (i j : ℕ) (v : FloatVal), (values[i]?.bind fun row => row[j]?) = some v →
      v.isInvalid = false →
      ((reinsert_nans filled mask)[i]?.bind fun row => row[j]?) = some v := by
  obtain ⟨hf, hm⟩ := mask_ok_eq values fillOpt filled mask h
  subst hf
  subst hm
  intro i j v hv hfin
  obtain ⟨q, rfl⟩ := (isInvalid_eq_false_iff v).mp hfin
  simp only [masked_invalid_mask]
  split
  · rw [reinsert_nans_maskarray]
    cases hrow : values[i]? with
    | none => rw [hrow] at hv; simp at hv
    | some row =>
      rw [hrow] at hv
      replace hv : row[j]? = some (FloatVal.val q) := hv
      simp [List.getElem?_map, hrow, hv, FloatVal.isInvalid]
  · simp only [reinsert_nans]
    cases hrow : values[i]? with
    | none => rw [hrow] at hv; simp at hv
    | some row =>
      rw [hrow] at hv
      replace hv : row[j]? = some (FloatVal.val q) := hv
      simp [List.getElem?_map, hrow, hv, FloatVal.fillWith]

/-- Claim C3 (amended) witness: the round-trip on the concrete accepted input
`[[1, NaN]]`. -/
theorem C3_amended_roundtrip_witness :
    ((reinsert_nans [[1, -7]] (.maskArray [[false, true]]))[0]?.bind fun row => row[0]?) =
      some (FloatVal.val 1) := by
  exact C3_amended_roundtrip [[FloatVal.val 1, FloatVal.nan]] (some (-7)) [[1, -7]]
    (.maskArray [[false, true]]) rfl 0 0 (FloatVal.val 1) rfl rfl

/-!
Embedding of the per-container preprocessors and the shape validator.

A pandas row index is one of the four kinds the source dispatches on: a `DatetimeIndex`
(timestamps modelled as integers, with an optional recorded frequency), the default
positional `RangeIndex` `0..n-1`, a hierarchical `MultiIndex` (whose content is irrelevant
to the code, which rejects it), or any other index, carrying a flag telling whether its
dtype is an integer dtype together with its labels.
-/

inductive PdIndex where
  | datetimeIdx (labels : List ℤ) (freq : Option ℤ)
  | rangeIdx (n : ℕ)
  | multiIdx (labels : List (ℤ × ℤ))
  | otherIdx (isIntDtype : Bool) (labels : List ℤ)
deriving DecidableEq, Repr

/-- A pandas DataFrame: a rectangular block of values (rows of floats), named columns, and a
row index.  (`preprocess_pandas_data` first promotes a `Series` to a one-column frame; the
claims below quantify over tables, so the embedding starts from the frame.) -/
structure DataFrame where
  values : List (List ℚ)
  col_names : List String
  index : PdIndex
deriving DecidableEq, Repr

/-- `data.shape` of a DataFrame: `(len(index), len(columns))`; as in pandas the row count is
the length of the value block. -/
def dfShape (df : DataFrame) : List ℕ := [df.values.length, df.col_names.length]

/-- `array.shape` of a 2-D numpy array given as a list of rows. -/
def npShape (values : List (List ℚ)) : List ℕ := [values.length, (values.headD []).length]

/-- `_validate_data_shape(data_shape, n_obs, obs_coords, check_col_names, col_names)` from
`data_tools.py`: rejects non-rank-2 shapes, then shapes whose last axis is not `n_obs`
(reporting expected and found column counts), then — only when `check_col_names` is set —
rejects the data when some expected observation coordinate is missing from the column names
(`missing_cols = set(obs_coords) - set(col_names)`). -/
def _validate_data_shape (data_shape : List ℕ) (n_obs : ℕ) (obs_coords : Option (List String))
    (check_col_names : Bool) (col_names : List String) : Except DataError Unit :=
  if data_shape.length ≠ 2 then .error .notRank2
  else
    match data_shape.getLast? with
    | none => .error .notRank2
    | some lastAxis =>
      if lastAxis ≠ n_obs then .error (.shapeMismatch n_obs lastAxis)
      else if check_col_names then
        let missing := (obs_coords.getD []).filter (fun c => decide (c ∉ col_names))
        if missing.length > 0 then .error (.missingColumns missing) else .ok ()
      else .ok ()

/-- `preprocess_numpy_data(data, n_obs, obs_coords)` from `data_tools.py`: validates the
shape and returns the data unchanged together with the synthetic index
`np.arange(data.shape[0])`.  (The advisory no-time-index warning is not modelled.) -/
def preprocess_numpy_data (values : List (List ℚ)) (n_obs : ℕ)
    (obs_coords : Option (List String)) : Except DataError (List (List ℚ) × List ℤ) :=
  match _validate_data_shape (npShape values) n_obs obs_coords false [] with
  | .error e => .error e
  | .ok _ => .ok (values, (List.range values.length).map Int.ofNat)

/-- `index.to_series().diff().dropna()` compared elementwise to 1: every successive
difference of neighboring labels equals 1 (vacuously true for an index of length ≤ 1). -/
def diffsAllOne (labels : List ℤ) : Bool :=
  (labels.zip labels.tail).all (fun p => decide (p.2 - p.1 = 1))

/-- `preprocess_pandas_data(data, n_obs, obs_coords, check_column_names)` from
`data_tools.py`, starting from a DataFrame.  The source first validates the shape (and
optionally column-name coverage), then dispatches on the index kind: a `DatetimeIndex` is
returned as the time index (the frequency-inference branch mutates only the recorded
frequency and emits an advisory warning; no claim depends on it); a `RangeIndex` falls back
to the plain-numpy path; a `MultiIndex` raises `NotImplementedError`; every other index must
be of integer dtype (`IndexError` otherwise) with all successive differences equal to 1
(`IndexError` otherwise) and then falls back to the plain-numpy path, which discards the
labels in favour of `np.arange`. -/
def preprocess_pandas_data (df : DataFrame) (n_obs : ℕ) (obs_coords : Option (List String))
    (check_column_names : Bool) : Except DataError (List (List ℚ) × List ℤ) :=
  match _validate_data_shape (dfShape df) n_obs obs_coords check_column_names df.col_names with
  | .error e => .error e
  | .ok _ =>
    match df.index with
    | .datetimeIdx labels _freq => .ok (df.values, labels)
    | .rangeIdx _ => preprocess_numpy_data df.values n_obs obs_coords
    | .multiIdx _ => .error .multiIndexNotImplemented
    | .otherIdx isIntDtype labels =>
      if ¬ isIntDtype then .error .indexNotInteger
      else if ¬ diffsAllOne labels then .error .indexNotMonotonic
      else preprocess_numpy_data df.values n_obs obs_coords

/-- Shape errors within the error taxonomy: the wrong-rank error and the wrong-column-count
error (both `ValueError`s raised by `_validate_data_shape`'s first two checks). -/
def DataError.isShapeError : DataError → Bool
  | .notRank2 => true
  | .shapeMismatch _ _ => true
  | _ => false

example : preprocess_pandas_data ⟨[[1, 2]], ["a", "b"], .otherIdx true [5]⟩ 1 none false =
    .error (.shapeMismatch 1 2) := by decide

example : preprocess_pandas_data ⟨[[1], [2]], ["a"], .otherIdx true [5, 6]⟩ 1 none false =
    .ok ([[1], [2]], [0, 1]) := by decide

example : preprocess_pandas_data ⟨[[1], [2]], ["a"], .otherIdx true [5, 7]⟩ 1 none false =
    .error .indexNotMonotonic := by decide

example : preprocess_pandas_data ⟨[[1], [2]], ["a"], .multiIdx [(0, 0)]⟩ 1 none false =
    .error .multiIndexNotImplemented := by decide

lemma validate_shape_rank2 (r c n_obs : ℕ) (obs_coords : Option (List String)) (check : Bool)
    (col_names : List String) :
    _validate_data_shape [r, c] n_obs obs_coords check col_names =
      (if c ≠ n_obs then .error (.shapeMismatch n_obs c)
       else if check then
         (let missing := (obs_coords.getD []).filter (fun x => decide (x ∉ col_names))
          if missing.length > 0 then .error (.missingColumns missing) else .ok ())
       else .ok ()) := rfl

lemma validate_ok_cols (r c n_obs : ℕ) (obs_coords : Option (List String)) (check : Bool)
    (col_names : List String)
    (h : _validate_data_shape [r, c] n_obs obs_coords check col_names = .ok ()) : c = n_obs := by
  rw [validate_shape_rank2] at h
  by_cases hc : c = n_obs
  · exact hc
  · rw [if_pos hc] at h
    simp at h

lemma preprocess_numpy_ok (values : List (List ℚ)) (n_obs : ℕ)
    (obs_coords : Option (List String)) (h : (values.headD []).length = n_obs) :
    preprocess_numpy_data values n_obs obs_coords =
      .ok (values, (List.range values.length).map Int.ofNat) := by
  have hv : _validate_data_shape (npShape values) n_obs obs_coords false [] = .ok () := by
    show _validate_data_shape [values.length, (values.headD []).length] n_obs obs_coords
      false [] = .ok ()
    rw [validate_shape_rank2, if_neg (not_not_intro h)]
    rfl
  unfold preprocess_numpy_data
  rw [hv]

/-- Claim C5: for every input data shape and expected observation count, shape validation
raises a shape-mismatch error exactly when the shape is not rank-2 or its last axis differs
from `n_obs` (reporting expected and actual column counts in the latter case), and raises no
shape error when the shape is rank-2 with last axis equal to `n_obs`. -/
theorem C5_validate_shape (data_shape : List ℕ) (n_obs : ℕ) (obs_coords : Option (List String))
    (check : Bool) (col_names : List String) :
    ((∃ e, _validate_data_shape data_shape n_obs obs_coords check col_names = .error e ∧
        e.isShapeError = true) ↔
      (data_shape.length ≠ 2 ∨ data_shape.getLast? ≠ some n_obs)) ∧
    (∀ r c : ℕ, data_shape = [r, c] → c ≠ n_obs →
      _validate_data_shape data_shape n_obs obs_coords check col_names =
        .error (.shapeMismatch n_obs c)) := by
  constructor
  · simp only [_validate_data_shape]
    split
    · rename_i hlen
      exact iff_of_true ⟨.notRank2, rfl, rfl⟩ (Or.inl hlen)
    · rename_i hlen
      split
      · rename_i hnone
        refine iff_of_true ⟨.notRank2, rfl, rfl⟩ (Or.inr ?_)
        rw [hnone]
        simp
      · rename_i lastAxis hlast
        split
        · rename_i hne
          refine iff_of_true ⟨.shapeMismatch n_obs lastAxis, rfl, rfl⟩ (Or.inr ?_)
          rw [hlast]
          simp [hne]
        · rename_i heq
          apply iff_of_false
          · rintro ⟨e, he, hse⟩
            split at he
            · split at he
              · rw [Except.error.injEq] at he
                subst he
                simp [DataError.isShapeError] at hse
              · simp at he
            · simp at he
          · rintro (h | h)
            · exact hlen h
            · apply h
              rw [hlast, not_not.mp heq]
  · intro r c hshape hne
    subst hshape
    rw [validate_shape_rank2, if_pos hne]

/-- Claim C5 witness: a concrete rank-2 shape with the wrong column count. -/
theorem C5_validate_shape_witness :
    _validate_data_shape [3, 5] 2 none false [] = .error (.shapeMismatch 2 5) :=
  (C5_validate_shape [3, 5] 2 none false []).2 3 5 rfl (by decide)

/-- Claim C9: with a valid rank-2 shape and column-name checking requested, the validator
raises its missing-column error exactly when some expected column label is absent from the
container's column names; extra columns beyond the expected labels never trigger it. -/
theorem C9_missing_columns_iff (r n_obs : ℕ) (oc : List String) (col_names : List String) :
    (∃ m, _validate_data_shape [r, n_obs] n_obs (some oc) true col_names =
        .error (.missingColumns m)) ↔
      ∃ c ∈ oc, c ∉ col_names := by
  rw [validate_shape_rank2, if_neg (not_not_intro rfl)]
  simp only [if_true, Option.getD_some]
  split
  · rename_i hpos
    refine iff_of_true ⟨_, rfl⟩ ?_
    rcases List.exists_mem_of_length_pos hpos with ⟨c, hc⟩
    rw [List.mem_filter, decide_eq_true_eq] at hc
    exact ⟨c, hc.1, hc.2⟩
  · rename_i hpos
    apply iff_of_false
    · rintro ⟨m, hm⟩
      simp at hm
    · rintro ⟨c, hcmem, hcnot⟩
      apply hpos
      apply List.length_pos.mpr
      intro hnil
      have : c ∈ (oc.filter (fun x => decide (x ∉ col_names))) := by
        rw [List.mem_filter, decide_eq_true_eq]
        exact ⟨hcmem, hcnot⟩
      rw [hnil] at this
      exact List.not_mem_nil c this

/-- Claim C4 counterexample: a one-row, two-column table with the consecutive (vacuously so)
integer index `[5]` and expected observation count 1.  Every pair of neighboring labels
differs by exactly 1, yet preprocessing does not succeed: it raises the shape-mismatch
`ValueError` (the shape check runs before the index check), not an `IndexError`. -/
theorem C4_counterexample :
    diffsAllOne [5] = true ∧
    preprocess_pandas_data ⟨[[1, 2]], ["a", "b"], .otherIdx true [5]⟩ 1 none false =
      .error (.shapeMismatch 1 2) ∧
    preprocess_pandas_data ⟨[[1, 2]], ["a", "b"], .otherIdx true [5]⟩ 1 none false ≠
      .error .indexNotMonotonic := by decide

/-- Claim C4 (amended): for every table input with an integer row-label index (other than the
default positional range index) whose shape and column-name validation passes: if any pair of
neighboring labels differs by a value other than 1 the preprocessing fails with an index
error, and if every successive difference equals 1 (regardless of the starting value) it
succeeds, returning the values with a synthetic `0..n-1` index. -/
theorem C4_amended_integer_index (df : DataFrame) (n_obs : ℕ) (obs_coords : Option (List String))
    (check : Bool) (labels : List ℤ)
    (hidx : df.index = .otherIdx true labels)
    (hshape : _validate_data_shape (dfShape df) n_obs obs_coords check df.col_names = .ok ())
    (hrect : (df.values.headD []).length = df.col_names.length) :
    (diffsAllOne labels = false →
      preprocess_pandas_data df n_obs obs_coords check = .error .indexNotMonotonic) ∧
    (diffsAllOne labels = true →
      preprocess_pandas_data df n_obs obs_coords check =
        .ok (df.values, (List.range df.values.length).map Int.ofNat)) := by
  have hc : df.col_names.length = n_obs :=
    validate_ok_cols df.values.length df.col_names.length n_obs obs_coords check df.col_names
      hshape
  constructor
  · intro hdiff
    simp only [preprocess_pandas_data, hshape, hidx, hdiff]
    rfl
  · intro hdiff
    simp only [preprocess_pandas_data, hshape, hidx, hdiff]
    exact preprocess_numpy_ok df.values n_obs obs_coords (hrect.trans hc)

/-- Claim C4 (amended) witness: a two-row one-column table with the consecutive integer index
`[5, 6]` (which does not start at 0) and matching shape succeeds. -/
theorem C4_amended_integer_index_witness :
    preprocess_pandas_data ⟨[[1], [2]], ["a"], .otherIdx true [5, 6]⟩ 1 none false =
      .ok ([[1], [2]], [0, 1]) := by
  have h := C4_amended_integer_index ⟨[[1], [2]], ["a"], .otherIdx true [5, 6]⟩ 1 none false
    [5, 6] rfl (by decide) rfl
  exact h.2 (by decide)

/-- Claim C8 counterexample: a one-row, two-column table with a hierarchical (multi-level)
row index and expected observation count 1 fails with the shape-mismatch `ValueError`, not
with the not-implemented error — the claim's "regardless of the table's contents or shape"
does not hold because shape validation runs first. -/
theorem C8_counterexample :
    preprocess_pandas_data ⟨[[1, 2]], ["a", "b"], .multiIdx [(0, 0)]⟩ 1 none false =
      .error (.shapeMismatch 1 2) ∧
    preprocess_pandas_data ⟨[[1, 2]], ["a", "b"], .multiIdx [(0, 0)]⟩ 1 none false ≠
      .error .multiIndexNotImplemented := by decide

/-- Claim C8 (amended): every table input whose row index is hierarchical (multi-level) and
whose shape (and optional column-name) validation passes fails with the not-implemented
error, regardless of the index's content. -/
theorem C8_amended_multiindex (df : DataFrame) (n_obs : ℕ) (obs_coords : Option (List String))
    (check : Bool) (labels : List (ℤ × ℤ))
    (hidx : df.index = .multiIdx labels)
    (hshape : _validate_data_shape (dfShape df) n_obs obs_coords check df.col_names = .ok ()) :
    preprocess_pandas_data df n_obs obs_coords check = .error .multiIndexNotImplemented := by
  simp only [preprocess_pandas_data, hshape, hidx]

/-- Claim C8 (amended) witness: a well-shaped one-column table with a hierarchical index. -/
theorem C8_amended_multiindex_witness :
    preprocess_pandas_data ⟨[[1], [2]], ["a"], .multiIdx [(0, 0), (0, 1)]⟩ 1 none false =
      .error .multiIndexNotImplemented :=
  C8_amended_multiindex ⟨[[1], [2]], ["a"], .multiIdx [(0, 0), (0, 1)]⟩ 1 none false
    [(0, 0), (0, 1)] rfl (by decide)

/-!
Embedding of `add_data_to_active_model`.  The ambient PyMC model context is modelled by its
coordinate mapping: an association list from dimension names to an optional coordinate value
sequence (PyMC stores `None` for a dimension whose coordinate values are unknown).
Coordinate values are the index labels, modelled as integers.  The `pm.Data(...)` call at the
end of the source function belongs to the excluded probabilistic-programming library; of it
the embedding keeps only the explicit shape hint the source computes for it, which
special-cases a single observed column as `(None, 1)`.
-/

/-- Modelled from the spec: the default time-dimension name constant `TIME_DIM` imported from
`pymc_extras.statespace.utils.constants`, a module not included in the sources.  Its concrete
value does not affect any claim below. -/
def TIME_DIM : String := "time"

/-- Modelled from the spec: the default observed-state dimension name constant
`OBS_STATE_DIM` from the same constants module.  Its concrete value does not affect any
claim below. -/
def OBS_STATE_DIM : String := "observed_state"

/-- The ambient model context, reduced to its coordinate mapping `coords`
(dimension name to optional coordinate value sequence, insertion-ordered). -/
structure ModelContext where
  coords : List (String × Option (List ℤ))
deriving DecidableEq, Repr

/-- `pymc_mod.coords.update({k: v})` on an existing key: replace the value bound to `k`. -/
def coordsUpdate (coords : List (String × Option (List ℤ))) (k : String)
    (v : Option (List ℤ)) : List (String × Option (List ℤ)) :=
  coords.map (fun p => if p.1 = k then (k, v) else p)

/-- The shape hint passed to `pm.Data`: `(None, 1)` when the data has a single column
(to avoid a JAX broadcasting error), `(None, n_cols)` otherwise. -/
def dataShapeHint (values : List (List ℚ)) : Option ℕ × ℕ :=
  if (values.headD []).length = 1 then (none, 1) else (none, (values.headD []).length)

/-- `add_data_to_active_model(values, index, data_dims)` from `data_tools.py`, restricted to
the state it reads and writes: the coordinate mapping of the ambient model context.
`data_dims` defaults to `[TIME_DIM, OBS_STATE_DIM]`; only its first element (the time
dimension name) is consulted here.  If the time dimension is absent from the model's coords
it is created with the index; if it is present but bound to `None` it is updated to the
index; if it is present with different values than the index a `ValueError` is raised;
otherwise nothing is changed.  Returns the updated context together with the shape hint the
source passes to the (external) `pm.Data` call. -/
def add_data_to_active_model (ctx : ModelContext) (values : List (List ℚ)) (index : List ℤ)
    (data_dims : Option (String × String)) : Except DataError (ModelContext × (Option ℕ × ℕ)) :=
  let dims := data_dims.getD (TIME_DIM, OBS_STATE_DIM)
  let time_dim := dims.1
  match ctx.coords.lookup time_dim with
  | none => .ok (⟨ctx.coords ++ [(time_dim, some index)]⟩, dataShapeHint values)
  | some none => .ok (⟨coordsUpdate ctx.coords time_dim (some index)⟩, dataShapeHint values)
  | some (some found) =>
    if found = index then .ok (ctx, dataShapeHint values)
    else .error .coordinateConflict

/-- The time-dimension name `add_data_to_active_model` consults: the first component of
`data_dims`, defaulting to `TIME_DIM`. -/
def timeDimOf (data_dims : Option (String × String)) : String :=
  (data_dims.getD (TIME_DIM, OBS_STATE_DIM)).1

example : add_data_to_active_model ⟨[]⟩ [[1]] [0, 1] none =
    .ok (⟨[(TIME_DIM, some [0, 1])]⟩, (none, 1)) := by decide

example : add_data_to_active_model ⟨[(TIME_DIM, some [0, 2])]⟩ [[1]] [0, 1] none =
    .error .coordinateConflict := by decide

example : add_data_to_active_model ⟨[(TIME_DIM, none)]⟩ [[1]] [0, 1] none =
    .ok (⟨[(TIME_DIM, some [0, 1])]⟩, (none, 1)) := by decide

/-- Claim C6: registering data against the ambient model context creates the time coordinate
when the time-dimension name is absent, replaces it when it is bound to an empty/none value,
and fails with a value error when it is bound to a coordinate sequence different from the
supplied index. -/
theorem C6_time_coord_registration (ctx : ModelContext) (values : List (List ℚ))
    (index : List ℤ) (data_dims : Option (String × String)) :
    (ctx.coords.lookup (timeDimOf data_dims) = none →
      add_data_to_active_model ctx values index data_dims =
        .ok (⟨ctx.coords ++ [(timeDimOf data_dims, some index)]⟩, dataShapeHint values)) ∧
    (ctx.coords.lookup (timeDimOf data_dims) = some none →
      add_data_to_active_model ctx values index data_dims =
        .ok (⟨coordsUpdate ctx.coords (timeDimOf data_dims) (some index)⟩,
          dataShapeHint values)) ∧
    (∀ found : List ℤ, ctx.coords.lookup (timeDimOf data_dims) = some (some found) →
      found ≠ index →
      add_data_to_active_model ctx values index data_dims = .error .coordinateConflict) := by
  refine ⟨?_, ?_, ?_⟩
  · intro h
    simp only [add_data_to_active_model, timeDimOf] at h ⊢
    rw [h]
  · intro h
    simp only [add_data_to_active_model, timeDimOf] at h ⊢
    rw [h]
  · intro found h hne
    simp only [timeDimOf] at h
    simp only [add_data_to_active_model, h]
    rw [if_neg hne]

/-- Claim C6 witness: a concrete run of all three branches' premises is not needed; the
absent-dimension branch is exercised on the empty context. -/
theorem C6_time_coord_registration_witness :
    add_data_to_active_model ⟨[]⟩ [[1]] [0, 1] none =
      .ok (⟨[(TIME_DIM, some [0, 1])]⟩, (none, 1)) := by
  have h := (C6_time_coord_registration ⟨[]⟩ [[1]] [0, 1] none).1 rfl
  exact h

/-- Claim C10: when the time-dimension name is already bound in the model context to a
coordinate sequence equal to the supplied index, registration leaves the context (in
particular its coordinate mapping) unchanged. -/
theorem C10_equal_coord_no_change (ctx : ModelContext) (values : List (List ℚ))
    (index : List ℤ) (data_dims : Option (String × String)) (found : List ℤ)
    (h : ctx.coords.lookup (timeDimOf data_dims) = some (some found))
    (heq : found = index) :
    add_data_to_active_model ctx values index data_dims = .ok (ctx, dataShapeHint values) := by
  simp only [timeDimOf] at h
  simp only [add_data_to_active_model, h]
  rw [if_pos heq]

/-- Claim C10 witness: a context already holding the time coordinate `[0, 1]` is returned
unchanged when the same index is registered again. -/
theorem C10_equal_coord_no_change_witness :
    add_data_to_active_model ⟨[(TIME_DIM, some [0, 1]), ("other", none)]⟩ [[1, 2]] [0, 1]
      none =
      .ok (⟨[(TIME_DIM, some [0, 1]), ("other", none)]⟩, (none, 2)) := by
  have h := C10_equal_coord_no_change ⟨[(TIME_DIM, some [0, 1]), ("other", none)]⟩ [[1, 2]]
    [0, 1] none [0, 1] (by decide) rfl
  exact h

/-!
Embedding of `simulate_from_numpy_model` from `tests/statespace/test_utilities.py`.

The function draws process shocks with `rng.multivariate_normal(mean=0, cov=Q)` and
observation errors with `rng.multivariate_normal(mean=0, cov=H)`.  numpy realises such a
draw as `mean + factor @ z` where `z` is a stream of independent standard-normal scalars
produced by the generator state and `factor` is a matrix square root of the covariance
(`factor * factorᵀ = cov`).  The embedding therefore takes the factor matrices and the raw
standard-normal streams as parameters; a theorem about the simulator constrains the factor
by the factorisation equation.  `np.allclose(A, 0)` (with its default tolerances and a zero
reference) holds exactly when every entry of `A` has absolute value at most `1e-8`. -/

/-- `np.allclose(M, 0)` with numpy's default tolerances: `|M i j| <= atol + rtol * 0`,
`atol = 1e-8`. -/
def npAllcloseZero {a b : ℕ} (M : Matrix (Fin a) (Fin b) ℚ) : Bool :=
  decide (∀ i j, |M i j| ≤ (1 : ℚ) / 100000000)

/-- A zero-mean multivariate-normal draw realised from a covariance factor and a vector of
standard-normal scalars: `factor @ z`. -/
def mvnDraw {n : ℕ} (factor : Matrix (Fin n) (Fin n) ℚ) (z : Fin n → ℚ) : Fin n → ℚ :=
  factor.mulVec z

/-- The state recursion of `simulate_from_numpy_model`: `x[0] = x0`;
`x[t] = c + T @ x[t-1] + innov` where `innov = R @ shock` with
`shock ~ multivariate_normal(0, Q)` when `k_posdef > 0`, and `innov = 0` otherwise. -/
def simStates {m k : ℕ} (x0 c : Fin m → ℚ) (T : Matrix (Fin m) (Fin m) ℚ)
    (R : Matrix (Fin m) (Fin k) ℚ) (Qfac : Matrix (Fin k) (Fin k) ℚ)
    (zshock : ℕ → Fin k → ℚ) : ℕ → Fin m → ℚ
  | 0 => x0
  | t + 1 =>
    let innov : Fin m → ℚ :=
      if 0 < k then R.mulVec (mvnDraw Qfac (zshock (t + 1))) else 0
    c + T.mulVec (simStates x0 c T R Qfac zshock t) + innov

/-- The observation matrix argument of `simulate_from_numpy_model`: either a single matrix
(`Z.ndim == 2`, time-invariant) or one matrix per time step (time-varying). -/
def zAt {m p : ℕ} (Z : Matrix (Fin p) (Fin m) ℚ ⊕ (ℕ → Matrix (Fin p) (Fin m) ℚ)) (t : ℕ) :
    Matrix (Fin p) (Fin m) ℚ :=
  match Z with
  | .inl M => M
  | .inr f => f t

/-- The observation sequence of `simulate_from_numpy_model`:
`y[0] = Z @ x0` (no intercept at time 0 in the source) plus an observation-noise draw unless
`np.allclose(H, 0)`; `y[t] = d + Z @ x[t] + error` for `t >= 1`, with the same noiseless
special case. -/
def simObsSeq {m p : ℕ} (Z : Matrix (Fin p) (Fin m) ℚ ⊕ (ℕ → Matrix (Fin p) (Fin m) ℚ))
    (d : Fin p → ℚ) (H Hfac : Matrix (Fin p) (Fin p) ℚ) (zerr : ℕ → Fin p → ℚ)
    (x : ℕ → Fin m → ℚ) (t : ℕ) : Fin p → ℚ :=
  let error : Fin p → ℚ := if npAllcloseZero H then 0 else mvnDraw Hfac (zerr t)
  match t with
  | 0 => (zAt Z 0).mulVec (x 0) + error
  | t' + 1 => d + (zAt Z (t' + 1)).mulVec (x (t' + 1)) + error

/-- `simulate_from_numpy_model(mod, rng, ...)` from `test_utilities.py`, with the statespace
matrices unpacked ahead of time (the source gets them from
`unpack_symbolic_matrices_with_params`) and the generator state presented as the
standard-normal streams `zshock`, `zerr` together with the covariance factors `Qfac`, `Hfac`
(see module docstring above).  Produces the trajectories `x[0..steps-1]` and
`y[0..steps-1]`. -/
def simulate_from_numpy_model {m p k : ℕ} (x0 c : Fin m → ℚ) (T : Matrix (Fin m) (Fin m) ℚ)
    (Z : Matrix (Fin p) (Fin m) ℚ ⊕ (ℕ → Matrix (Fin p) (Fin m) ℚ)) (d : Fin p → ℚ)
    (R : Matrix (Fin m) (Fin k) ℚ) (H Hfac : Matrix (Fin p) (Fin p) ℚ)
    (Qfac : Matrix (Fin k) (Fin k) ℚ) (zshock : ℕ → Fin k → ℚ) (zerr : ℕ → Fin p → ℚ)
    (steps : ℕ) : List (Fin m → ℚ) × List (Fin p → ℚ) :=
  let x := simStates x0 c T R Qfac zshock
  ((List.range steps).map x,
   (List.range steps).map (simObsSeq Z d H Hfac zerr x))

/-- The deterministic trajectory named by the claim: `x[0] = x0`,
`x[t] = c + T @ x[t-1]`. -/
def deterministic_trajectory {m : ℕ} (x0 c : Fin m → ℚ) (T : Matrix (Fin m) (Fin m) ℚ) :
    ℕ → Fin m → ℚ
  | 0 => x0
  | t + 1 => c + T.mulVec (deterministic_trajectory x0 c T t)

lemma factor_zero_of_self_mul_transpose {n : ℕ} (A : Matrix (Fin n) (Fin n) ℚ)
    (h : A * A.transpose = 0) : A = 0 := by
  ext i j
  have hdiag : (A * A.transpose) i i = 0 := by rw [h]; rfl
  rw [Matrix.mul_apply] at hdiag
  have hsq : ∀ l ∈ Finset.univ, (0 : ℚ) ≤ A i l * A.transpose l i := by
    intro l _
    rw [Matrix.transpose_apply]
    exact mul_self_nonneg (A i l)
  have hall := (Finset.sum_eq_zero_iff_of_nonneg hsq).mp hdiag
  have hj := hall j (Finset.mem_univ j)
  rw [Matrix.transpose_apply] at hj
  simpa using mul_self_eq_zero.mp hj

lemma simStates_eq_deterministic {m k : ℕ} (x0 c : Fin m → ℚ) (T : Matrix (Fin m) (Fin m) ℚ)
    (R : Matrix (Fin m) (Fin k) ℚ) (zshock : ℕ → Fin k → ℚ) (t : ℕ) :
    simStates x0 c T R 0 zshock t = deterministic_trajectory x0 c T t := by
  induction t with
  | zero => rfl
  | succ t ih =>
    simp only [simStates, deterministic_trajectory, ih, mvnDraw, Matrix.zero_mulVec,
      Matrix.mulVec_zero]
    split <;> simp

/-- Claim C7: with zero process-noise covariance and zero observation-noise covariance
(`Q` and `H` both zero matrices), for every initial state, every system matrix set and every
random generator state, the simulator produces exactly the deterministic trajectory
`x[0] = x0`, `x[t] = c + T @ x[t-1]` for all `t < steps`. -/
theorem C7_zero_noise_deterministic {m p k : ℕ} (x0 c : Fin m → ℚ)
    (T : Matrix (Fin m) (Fin m) ℚ) (Z : Matrix (Fin p) (Fin m) ℚ ⊕ (ℕ → Matrix (Fin p) (Fin m) ℚ))
    (d : Fin p → ℚ) (R : Matrix (Fin m) (Fin k) ℚ) (H Hfac : Matrix (Fin p) (Fin p) ℚ)
    (Q Qfac : Matrix (Fin k) (Fin k) ℚ) (zshock : ℕ → Fin k → ℚ) (zerr : ℕ → Fin p → ℚ)
    (steps : ℕ) (hQ : Q = 0) (_hH : H = 0) (hfac : Qfac * Qfac.transpose = Q) :
    ∀ t < steps,
      (simulate_from_numpy_model x0 c T Z d R H Hfac Qfac zshock zerr steps).1[t]? =
        some (deterministic_trajectory x0 c T t) := by
  subst hQ
  have hzero : Qfac = 0 := factor_zero_of_self_mul_transpose Qfac hfac
  subst hzero
  intro t ht
  simp only [simulate_from_numpy_model, List.getElem?_map, List.getElem?_range ht,
    Option.map_some']
  rw [simStates_eq_deterministic]

/-- Claim C7 witness: a concrete one-dimensional system (`T = [[2]]`, `c = [3]`,
`x0 = [1]`, `Q = H = 0`) simulated for 3 steps matches the deterministic trajectory at
`t = 2`. -/
theorem C7_zero_noise_deterministic_witness :
    (simulate_from_numpy_model (m := 1) (p := 1) (k := 1) (fun _ => 1) (fun _ => 3) 2
        (.inl 1) (fun _ => 0) 1 0 0 0 (fun _ _ => 5) (fun _ _ => 7) 3).1[2]? =
      some (deterministic_trajectory (fun _ => 1) (fun _ => 3) 2 2) := by
  exact C7_zero_noise_deterministic (fun _ => 1) (fun _ => 3) 2 (.inl 1) (fun _ => 0) 1 0 0
    0 0 (fun _ _ => 5) (fun _ _ => 7) 3 rfl rfl (by simp) 2 (by decide)
